import Mathlib

/-!
Verification of the Claude review pipeline in
`.github/scripts/claude_review.py`.

The script is embedded shallowly:
* Python strings become `String`, with the operations the script uses
  (`lower`, `strip`, slicing, `split`, `join`, `startswith`, `endswith`)
  re-implemented by structural recursion on the character list, matching
  the code-point semantics of Python.
* The filesystem is a function from paths to a `FileData` that records
  whether the file is absent, present but unreadable (a read raises), or
  present with given text content.  `glob` results for the patterns
  directory are passed in as the list of matched paths in match order.
* The Anthropic API call is an opaque outcome `Except String String`:
  `.ok text` is a successful completion, `.error e` an exception whose
  `str(e)` is `e`.
* `run_claude_review` returns `Except String RunResult`: `.ok r` means the
  script terminated normally, wrote `r.output` to `/tmp/review_result.md`
  and exited with `r.exitCode`; `r.sent` is `some (system, user)` when the
  API invocation was attempted with those two prompts and `none` when no
  network call was made.  `.error e` means an exception escaped
  `run_claude_review` uncaught (no document written, abnormal exit).
-/

/-- Python `str.lower`, code point by code point. -/
def lowerStr (s : String) : String :=
  String.mk (s.data.map Char.toLower)

/-- Strip whitespace from both ends of a character list (Python `str.strip`). -/
def trimChars (l : List Char) : List Char :=
  ((l.dropWhile Char.isWhitespace).reverse.dropWhile Char.isWhitespace).reverse

/-- Python `str.strip()`. -/
def trimStr (s : String) : String :=
  String.mk (trimChars s.data)

/-- Python slicing `s[:n]`: the first `n` code points of `s`. -/
def takeStr (n : Nat) (s : String) : String :=
  String.mk (s.data.take n)

/-- Split a character list at every occurrence of `sep`; `acc` holds the
current (reversed) chunk. -/
def splitOnCharAux (sep : Char) : List Char → List Char → List String
  | acc, [] => [String.mk acc.reverse]
  | acc, c :: rest =>
    if c = sep then String.mk acc.reverse :: splitOnCharAux sep [] rest
    else splitOnCharAux sep (c :: acc) rest

/-- Split a string at every occurrence of the character `sep`. -/
def splitOnChar (sep : Char) (s : String) : List String :=
  splitOnCharAux sep [] s.data

/-- The lines of a text (the line iteration of Python, with the
terminating newlines removed; the script strips every line anyway). -/
def splitLines (s : String) : List String :=
  splitOnChar '\n' s

/-- Python `os.path.basename` for the slash-separated paths the script uses. -/
def basename (p : String) : String :=
  (splitOnChar '/' p).getLastD p

/-- Python `sep.join(parts)`. -/
def joinParts (sep : String) : List String → String
  | [] => ""
  | [p] => p
  | p :: q :: rest => p ++ sep ++ joinParts sep (q :: rest)

/-- Python `s.startswith (p)`. -/
def startsWithStr (p s : String) : Bool :=
  p.data.isPrefixOf s.data

/-- Python `s.endswith (p)`. -/
def endsWithStr (p s : String) : Bool :=
  p.data.reverse.isPrefixOf s.data.reverse

/-- The text after the first occurrence of `sep` in a character list:
`some rest` when `sep` occurs (Python `l.split(sep, 1)[1]`), `none` when it
does not. -/
def dropAfterFirst (sep : List Char) : List Char → Option (List Char)
  | [] => if sep.isEmpty then some [] else none
  | c :: rest =>
    if sep.isPrefixOf (c :: rest) then some ((c :: rest).drop sep.length)
    else dropAfterFirst sep rest

/-- State of one path of the input filesystem: the file is absent, or it
exists but any attempt to read it raises, or it exists with the given
text content. -/
inductive FileData where
  | absent : FileData
  | unreadable : FileData
  | content : String → FileData
deriving DecidableEq

/-- The input filesystem: what each path holds. -/
def FS : Type := String → FileData

/-- Constant `ai_dev_kit_path` from the script. -/
def ai_dev_kit_path : String := "/tmp/ai-dev-kit"

/-- Constant `priority_files` from the script, in source order. -/
def priority_files : List String :=
  ["CLAUDE.md", "docs/AI_QUICK_RULES.md", "docs/AI_DEVELOPER_GUIDE.md"]

/-- The knowledge block appended for a priority file. -/
def priorityBlock (rel c : String) : String :=
  "## " ++ rel ++ "\n\n" ++ c ++ "\n"

/-- The knowledge block appended for a patterns-directory file. -/
def patternBlock (pf c : String) : String :=
  "## Pattern: " ++ basename pf ++ "\n\n" ++ c ++ "\n"

/-- Function `load_ai_dev_kit_knowledge`: read the priority files in order, then,
when the patterns directory exists, the glob-matched pattern files in match
order; a file that is absent or whose read raises is skipped; join the
collected blocks with `"\n---\n"`, returning `""` when none was collected.
`patternsDirExists` models `os.path.exists(patterns_dir)` and
`patternFiles` the `glob.glob` result in match order. -/
def load_ai_dev_kit_knowledge (fs : FS) (patternsDirExists : Bool)
    (patternFiles : List String) : String :=
  let parts1 := priority_files.foldl (fun acc rel =>
    match fs (ai_dev_kit_path ++ "/" ++ rel) with
    | .content c => acc ++ [priorityBlock rel c]
    | _ => acc) []
  let parts2 :=
    if patternsDirExists then
      patternFiles.foldl (fun acc pf =>
        match fs pf with
        | .content c => acc ++ [patternBlock pf c]
        | _ => acc) parts1
    else parts1
  if parts2.isEmpty then "" else joinParts "\n---\n" parts2

/-- Function `load_pr_diff`: return the text of the diff file, `""` when the file is
absent; a read failure on an existing file is NOT caught and propagates
(`.error`). -/
def load_pr_diff (fs : FS) : Except String String :=
  match fs "/tmp/pr_diff.patch" with
  | .absent => .ok ""
  | .unreadable => .error "OSError: /tmp/pr_diff.patch"
  | .content c => .ok c

/-- The changed-file filter: under `games/` with extension `.lua`, `.json`
or `.md` (the inline condition of the loop in
`load_changed_files_content`). -/
def gameFileFilter (p : String) : Bool :=
  startsWithStr "games/" p &&
    (endsWithStr ".lua" p || endsWithStr ".json" p || endsWithStr ".md" p)

/-- The content block appended for one included changed file. -/
def changedFileBlock (p c : String) : String :=
  "### " ++ p ++ "\n```\n" ++ c ++ "\n```\n"

/-- Function `load_changed_files_content`: parse `/tmp/changed_files.txt` into
stripped non-blank lines; for each listed path passing `gameFileFilter`
that exists and is readable, append its content block; join with `"\n"`.
Returns `.ok ""` when the list file is absent; a read failure on the list
file itself is NOT caught and propagates (`.error`); a read failure on an
individual changed file is caught and that file is skipped. -/
def load_changed_files_content (fs : FS) : Except String String :=
  match fs "/tmp/changed_files.txt" with
  | .absent => .ok ""
  | .unreadable => .error "OSError: /tmp/changed_files.txt"
  | .content listText =>
    let files := ((splitLines listText).map trimStr).filter (fun l => l ≠ "")
    let contents := files.foldl (fun acc p =>
      if gameFileFilter p then
        match fs p with
        | .content c => acc ++ [changedFileBlock p c]
        | _ => acc
      else acc) []
    .ok (joinParts "\n" contents)

/-- The trigger keyword. -/
def trigger : String := "@claude"

/-- The instruction extraction in `run_claude_review`: lowercase the
comment body, and when `"@claude"` occurs in the lowered text, take the
stripped remainder after its first occurrence; otherwise `""`. -/
def extractInstruction (comment_body : String) : String :=
  match dropAfterFirst trigger.data (lowerStr comment_body).data with
  | some rest => trimStr (String.mk rest)
  | none => ""

/-- Fallback substituted in the system prompt for an empty knowledge blob. -/
def knowledgeFallback : String := "（知识库加载失败，请基于通用 Lua 最佳实践进行审查）"

/-- Fallback substituted in the user message for an empty instruction. -/
def instructionFallback : String := "（无特别要求，请进行全面审查）"

/-- Fallback substituted in the user message for an empty diff. -/
def diffFallback : String := "（无法获取 diff）"

/-- Fallback substituted in the user message for empty changed-file content. -/
def changedFallback : String := "（无游戏相关文件变更）"

/-- The system prompt text before the knowledge blob. -/
def sysPromptPre : String :=
  "你是一个专业的 UrhoX 游戏引擎 Lua 代码审查专家。你的任务是审查提交到 awesome-urhox-games 仓库的游戏代码。\n\n## 你的专业知识\n\n以下是 UrhoX 引擎的开发文档和最佳实践：\n\n"

/-- The system prompt text after the knowledge blob. -/
def sysPromptPost : String :=
  "\n\n## 审查标准\n\n1. **代码质量**: Lua 代码是否遵循最佳实践\n2. **UrhoX API 使用**: 是否正确使用 UrhoX 引擎 API\n3. **游戏逻辑**: 游戏逻辑是否合理、是否有明显 bug\n4. **性能**: 是否有性能问题（如 Update 中的频繁分配）\n5. **安全性**: 是否有安全隐患\n6. **项目规范**: 是否符合 awesome-urhox-games 的项目规范（game.json、README.md 等）\n\n## 输出格式\n\n请用中文回复，格式如下：\n- 使用 emoji 使审查更易读\n- 分类列出问题（严重 🔴、警告 🟡、建议 🟢）\n- 对每个问题给出具体的代码位置和修改建议\n- 最后给出总体评价和是否建议合并\n"

/-- The f-string building `system_prompt`: the knowledge blob is truncated
to its first 50000 code points, with the fallback sentence when empty. -/
def buildSystemPrompt (knowledge : String) : String :=
  sysPromptPre ++
    (if knowledge = "" then knowledgeFallback else takeStr 50000 knowledge) ++
    sysPromptPost

/-- User message template piece before the PR number. -/
def userMsgPart1 : String := "请审查以下 Pull Request #"

/-- User message template piece between the PR number and the instruction. -/
def userMsgPart2 : String := " 的代码变更：\n\n## 用户特别要求\n"

/-- User message template piece between the instruction and the diff. -/
def userMsgPart3 : String := "\n\n## PR Diff\n```diff\n"

/-- User message template piece between the diff and the changed files. -/
def userMsgPart4 : String := "\n```\n\n## 变更文件完整内容\n"

/-- User message template piece after the changed files. -/
def userMsgPart5 : String := "\n\n请开始代码审查。\n"

/-- The f-string building `user_message`: embeds the PR number, the
instruction (fallback when empty), the diff truncated to 30000 code points
(fallback when empty) and the changed-file content truncated to 20000 code
points (fallback when empty). -/
def buildUserMessage (pr_number user_instruction pr_diff changed_files : String) : String :=
  userMsgPart1 ++ pr_number ++ userMsgPart2 ++
    (if user_instruction = "" then instructionFallback else user_instruction) ++
    userMsgPart3 ++
    (if pr_diff = "" then diffFallback else takeStr 30000 pr_diff) ++
    userMsgPart4 ++
    (if changed_files = "" then changedFallback else takeStr 20000 changed_files) ++
    userMsgPart5

/-- The document written when `ANTHROPIC_API_KEY` is missing. -/
def configErrorDoc : String :=
  "❌ **Error**: `ANTHROPIC_API_KEY` secret is not configured.\n\nPlease add your Anthropic API key in repository Settings → Secrets → Actions."

/-- Success document text before the PR number. -/
def reviewHeaderPre : String :=
  "## 🤖 Claude Code Review\n\n> 由 Claude AI 自动生成的代码审查报告\n> PR #"

/-- Success document text between the PR number and the model output. -/
def reviewHeaderPost : String := " | 触发者: @claude 命令\n\n---\n\n"

/-- Success document text after the model output. -/
def reviewFooter : String :=
  "\n\n---\n<sub>🔗 Powered by [Claude](https://anthropic.com) | 知识来源: [UrhoX AI Dev Kit](https://urhox-demo-platform.spark.xd.com/ai-dev-kit/pd/stable/ai-dev-kit.zip)</sub>\n"

/-- The document written on a successful review. -/
def successDoc (pr_number review_content : String) : String :=
  reviewHeaderPre ++ pr_number ++ reviewHeaderPost ++ review_content ++ reviewFooter

/-- Invocation-failure document text before the exception text. -/
def invocationErrorPre : String :=
  "## ❌ Claude Code Review Failed\n\n抱歉，代码审查过程中出现错误：\n\n```\n"

/-- Invocation-failure document text after the exception text. -/
def invocationErrorPost : String :=
  "\n```\n\n请检查 `ANTHROPIC_API_KEY` 配置是否正确。\n"

/-- The document written when the model invocation raises with text `e`. -/
def invocationErrorDoc (e : String) : String :=
  invocationErrorPre ++ e ++ invocationErrorPost

/-- The environment variables the script reads. -/
structure Env where
  apiKey : Option String
  prNumber : Option String
  commentBody : Option String

/-- Observable outcome of a normally terminating run: the document written
to `/tmp/review_result.md`, the process exit status, and the pair of
prompts sent to the API (`none` when no call was attempted). -/
structure RunResult where
  output : String
  exitCode : Nat
  sent : Option (String × String)
deriving DecidableEq

/-- Function `run_claude_review`.  Result `.error e` models an exception escaping the
function uncaught (possible only from the two uncaught file reads in
`load_pr_diff` / `load_changed_files_content`). -/
def run_claude_review (env : Env) (fs : FS) (patternsDirExists : Bool)
    (patternFiles : List String) (modelResponse : Except String String) :
    Except String RunResult :=
  if env.apiKey.getD "" = "" then
    .ok ⟨configErrorDoc, 0, none⟩
  else
    let pr_number := env.prNumber.getD "unknown"
    let comment_body := env.commentBody.getD ""
    let user_instruction := extractInstruction comment_body
    let knowledge := load_ai_dev_kit_knowledge fs patternsDirExists patternFiles
    match load_pr_diff fs with
    | .error e => .error e
    | .ok pr_diff =>
      match load_changed_files_content fs with
      | .error e => .error e
      | .ok changed_files =>
        let system_prompt := buildSystemPrompt knowledge
        let user_message := buildUserMessage pr_number user_instruction pr_diff changed_files
        match modelResponse with
        | .ok review_content =>
          .ok ⟨successDoc pr_number review_content, 0, some (system_prompt, user_message)⟩
        | .error e =>
          .ok ⟨invocationErrorDoc e, 1, some (system_prompt, user_message)⟩

/-! ### Helper lemmas -/

/-- Predicate: `sep` occurs as a contiguous substring of `l`. -/
def OccursIn (sep l : List Char) : Prop :=
  ∃ pre post, l = pre ++ sep ++ post

/-- The optional content block a single listed path contributes: `some`
exactly when the path passes the filter, exists and is readable. -/
def changedBlock (fs : FS) (p : String) : Option String :=
  if gameFileFilter p then
    match fs p with
    | .content c => some (changedFileBlock p c)
    | _ => none
  else none

/-- The optional knowledge block a priority file contributes. -/
def priorityPart (fs : FS) (rel : String) : Option String :=
  match fs (ai_dev_kit_path ++ "/" ++ rel) with
  | .content c => some (priorityBlock rel c)
  | _ => none

/-- The optional knowledge block a glob-matched pattern file contributes. -/
def patternPart (fs : FS) (pf : String) : Option String :=
  match fs pf with
  | .content c => some (patternBlock pf c)
  | _ => none

/-- Fixture: a filesystem whose diff file exists but cannot be read. -/
def fsUnreadableDiff : FS := fun p =>
  if p = "/tmp/pr_diff.patch" then FileData.unreadable else FileData.absent

/-- Fixture: a changed-file list mixing qualifying and non-qualifying paths. -/
def sampleListText : String :=
  "games/foo/main.lua\n\n  games/a.json  \nREADME.md\ngames/b.txt\ngames/missing.md\n"

/-- Fixture filesystem for the changed-file loader. -/
def sampleFS : FS := fun p =>
  if p = "/tmp/changed_files.txt" then FileData.content sampleListText
  else if p = "games/foo/main.lua" then FileData.content "print(1)"
  else if p = "games/a.json" then FileData.content "x"
  else if p = "games/b.txt" then FileData.content "nope"
  else FileData.absent

/-- Fixture: a knowledge blob longer than 50000 characters. -/
def bigKnowledge : String := String.mk (List.replicate 50001 'k')

/-- Fixture: a diff longer than 30000 characters. -/
def bigDiff : String := String.mk (List.replicate 30001 'd')

/-- Fixture: changed-file content longer than 20000 characters. -/
def bigChanged : String := String.mk (List.replicate 20001 'c')

theorem dropAfterFirst_of_isPrefixOf {sep l : List Char} (h : sep.isPrefixOf l) :
    dropAfterFirst sep l = some (l.drop sep.length) := by
  cases l with
  | nil =>
    have hs : sep = [] := by
      cases sep with
      | nil => rfl
      | cons a as => simp [List.isPrefixOf] at h
    subst hs
    simp [dropAfterFirst]
  | cons c rest =>
    simp [dropAfterFirst, h]

theorem dropAfterFirst_isSome_of_occurs {sep l : List Char} (h : OccursIn sep l) :
    (dropAfterFirst sep l).isSome := by
  obtain ⟨pre, post, hl⟩ := h
  subst hl
  induction pre with
  | nil =>
    rw [List.nil_append,
      dropAfterFirst_of_isPrefixOf (List.isPrefixOf_iff_prefix.mpr (List.prefix_append sep post))]
    simp
  | cons a pre ih =>
    rw [List.cons_append, List.cons_append]
    rw [dropAfterFirst]
    split
    · simp
    · exact ih

theorem dropAfterFirst_eq_none_of_not_occurs {sep l : List Char} (hsep : sep ≠ [])
    (h : ¬ OccursIn sep l) : dropAfterFirst sep l = none := by
  induction l with
  | nil =>
    have : sep.isEmpty = false := by
      cases sep with
      | nil => exact absurd rfl hsep
      | cons a as => rfl
    simp [dropAfterFirst, this]
  | cons c rest ih =>
    have h1 : ¬ sep.isPrefixOf (c :: rest) = true := by
      intro hp
      obtain ⟨t, ht⟩ := List.isPrefixOf_iff_prefix.mp hp
      exact h ⟨[], t, by rw [← ht]; simp⟩
    rw [dropAfterFirst, if_neg h1]
    exact ih (fun hocc => by
      obtain ⟨pre, post, hp⟩ := hocc
      exact h ⟨c :: pre, post, by rw [hp]; simp⟩)

theorem dropAfterFirst_first {sep post : List Char} :
    ∀ pre : List Char,
      (∀ pre2 post2, pre ++ sep ++ post = pre2 ++ sep ++ post2 → pre.length ≤ pre2.length) →
      dropAfterFirst sep (pre ++ sep ++ post) = some post
  | [], _ => by
    rw [List.nil_append,
      dropAfterFirst_of_isPrefixOf (List.isPrefixOf_iff_prefix.mpr (List.prefix_append sep post))]
    rw [List.drop_left]
  | a :: pre, hmin => by
    have hnp : ¬ sep.isPrefixOf (a :: (pre ++ sep ++ post)) = true := by
      intro hp
      obtain ⟨t, ht⟩ := List.isPrefixOf_iff_prefix.mp hp
      have hle := hmin [] t (by rw [List.nil_append, ht]; simp only [List.cons_append])
      simp at hle
    have hform : (a :: pre) ++ sep ++ post = a :: (pre ++ sep ++ post) := by
      simp only [List.cons_append]
    rw [hform, dropAfterFirst, if_neg hnp]
    refine dropAfterFirst_first pre (fun pre2 post2 heq => ?_)
    have hle2 := hmin (a :: pre2) post2 (by simp only [List.cons_append]; rw [heq])
    simpa using hle2

theorem foldl_opt_append {α β : Type} (f : α → Option β) :
    ∀ (l : List α) (acc : List β),
      l.foldl (fun a x => a ++ (f x).toList) acc = acc ++ l.filterMap f
  | [], acc => by simp
  | x :: xs, acc => by
    rw [List.foldl_cons, foldl_opt_append f xs]
    cases hfx : f x <;> simp [List.filterMap_cons, hfx]

theorem changed_fold_body (fs : FS) :
    (fun (acc : List String) p =>
      if gameFileFilter p then
        match fs p with
        | FileData.content c => acc ++ [changedFileBlock p c]
        | _ => acc
      else acc)
      = fun acc p => acc ++ (changedBlock fs p).toList := by
  funext acc p
  by_cases h : gameFileFilter p
  · cases hfp : fs p <;> simp [changedBlock, h, hfp]
  · simp [changedBlock, h]

theorem priority_fold_body (fs : FS) :
    (fun (acc : List String) rel =>
      match fs (ai_dev_kit_path ++ "/" ++ rel) with
      | FileData.content c => acc ++ [priorityBlock rel c]
      | _ => acc)
      = fun acc rel => acc ++ (priorityPart fs rel).toList := by
  funext acc rel
  cases hf : fs (ai_dev_kit_path ++ "/" ++ rel) <;> simp [priorityPart, hf]

theorem pattern_fold_body (fs : FS) :
    (fun (acc : List String) pf =>
      match fs pf with
      | FileData.content c => acc ++ [patternBlock pf c]
      | _ => acc)
      = fun acc pf => acc ++ (patternPart fs pf).toList := by
  funext acc pf
  cases hf : fs pf <;> simp [patternPart, hf]

/-- Closed form of the knowledge loader: the priority blocks in
priority-list order, then (when the patterns directory exists) the pattern
blocks in glob-match order. -/
theorem load_knowledge_eq (fs : FS) (patternsDirExists : Bool)
    (patternFiles : List String) :
    load_ai_dev_kit_knowledge fs patternsDirExists patternFiles =
      (if (priority_files.filterMap (priorityPart fs) ++
            (if patternsDirExists then patternFiles.filterMap (patternPart fs) else [])).isEmpty
       then ""
       else joinParts "\n---\n"
         (priority_files.filterMap (priorityPart fs) ++
           (if patternsDirExists then patternFiles.filterMap (patternPart fs) else []))) := by
  unfold load_ai_dev_kit_knowledge
  rw [priority_fold_body fs]
  cases patternsDirExists with
  | false => simp [foldl_opt_append]
  | true =>
    rw [pattern_fold_body fs]
    simp [foldl_opt_append]

/-- Closed form of the changed-file loader on a present, readable list
file: the blocks of the qualifying listed paths, in list order. -/
theorem load_changed_eq (fs : FS) (s : String)
    (h : fs "/tmp/changed_files.txt" = FileData.content s) :
    load_changed_files_content fs =
      Except.ok (joinParts "\n"
        ((((splitLines s).map trimStr).filter (fun l => l ≠ "")).filterMap (changedBlock fs))) := by
  unfold load_changed_files_content
  rw [h, changed_fold_body fs]
  simp [foldl_opt_append]

/-- A run with the credential variable unset or empty writes the fixed
configuration-error document, exits 0 and attempts no API call. -/
theorem run_of_no_key (env : Env) (fs : FS) (patternsDirExists : Bool)
    (patternFiles : List String) (modelResponse : Except String String)
    (h : env.apiKey.getD "" = "") :
    run_claude_review env fs patternsDirExists patternFiles modelResponse =
      .ok ⟨configErrorDoc, 0, none⟩ := by
  unfold run_claude_review
  rw [if_pos h]

/-- A run with a credential whose two uncaught file reads succeed: the
prompts are built and the outcome is determined by the model response. -/
theorem run_of_key (env : Env) (fs : FS) (patternsDirExists : Bool)
    (patternFiles : List String) (modelResponse : Except String String)
    (d c : String)
    (hk : ¬ env.apiKey.getD "" = "")
    (hd : load_pr_diff fs = .ok d)
    (hc : load_changed_files_content fs = .ok c) :
    run_claude_review env fs patternsDirExists patternFiles modelResponse =
      (match modelResponse with
       | .ok rc =>
         .ok ⟨successDoc (env.prNumber.getD "unknown") rc, 0,
           some (buildSystemPrompt (load_ai_dev_kit_knowledge fs patternsDirExists patternFiles),
             buildUserMessage (env.prNumber.getD "unknown")
               (extractInstruction (env.commentBody.getD "")) d c)⟩
       | .error e =>
         .ok ⟨invocationErrorDoc e, 1,
           some (buildSystemPrompt (load_ai_dev_kit_knowledge fs patternsDirExists patternFiles),
             buildUserMessage (env.prNumber.getD "unknown")
               (extractInstruction (env.commentBody.getD "")) d c)⟩) := by
  unfold run_claude_review
  rw [if_neg hk, hd, hc]

/-- The diff loader returns normally when the diff file is not an
existing-but-unreadable file. -/
theorem load_pr_diff_ok (fs : FS) (hdiff : fs "/tmp/pr_diff.patch" ≠ FileData.unreadable) :
    ∃ d, load_pr_diff fs = .ok d := by
  cases hfd : fs "/tmp/pr_diff.patch" with
  | absent => exact ⟨"", by unfold load_pr_diff; rw [hfd]⟩
  | unreadable => exact absurd hfd hdiff
  | content c => exact ⟨c, by unfold load_pr_diff; rw [hfd]⟩

/-- The changed-file loader returns normally when the list file is not an
existing-but-unreadable file. -/
theorem load_changed_ok (fs : FS)
    (hlist : fs "/tmp/changed_files.txt" ≠ FileData.unreadable) :
    ∃ c, load_changed_files_content fs = .ok c := by
  cases hfc : fs "/tmp/changed_files.txt" with
  | absent => exact ⟨"", by unfold load_changed_files_content; rw [hfc]⟩
  | unreadable => exact absurd hfc hlist
  | content s => exact ⟨_, load_changed_eq fs s hfc⟩

/-! ### Claims -/

/-- C1 (amended): the extracted user instruction equals the trimmed
remainder of the LOWERCASED comment text following the first occurrence of
the keyword in the lowercased text; for a comment body with no
case-insensitive occurrence of the keyword, the instruction is the empty
string.  (The script splits `comment_body.lower()`, so the instruction is
lowercased, not the original-case remainder.) -/
theorem C1_instruction_extraction (s : String) :
    (∀ pre post : List Char,
      (lowerStr s).data = pre ++ trigger.data ++ post →
      (∀ pre2 post2 : List Char,
        (lowerStr s).data = pre2 ++ trigger.data ++ post2 → pre.length ≤ pre2.length) →
      extractInstruction s = trimStr (String.mk post)) ∧
    (¬ OccursIn trigger.data (lowerStr s).data → extractInstruction s = "") := by
  constructor
  · intro pre post hocc hmin
    unfold extractInstruction
    rw [hocc, dropAfterFirst_first pre (fun pre2 post2 h => hmin pre2 post2 (hocc.trans h))]
  · intro hno
    unfold extractInstruction
    rw [dropAfterFirst_eq_none_of_not_occurs (by decide) hno]

/-- C1 counterexample: for the comment body `"@claude Please Review THIS"`
the trimmed remainder of the (original) comment text after the keyword is
`"Please Review THIS"`, but the script extracts the lowercased
`"please review this"`. -/
theorem C1_counterexample :
    extractInstruction "@claude Please Review THIS" ≠ trimStr " Please Review THIS" ∧
    trimStr " Please Review THIS" = "Please Review THIS" ∧
    extractInstruction "@claude Please Review THIS" = "please review this" := by
  refine ⟨by decide, by decide, by decide⟩

/-- C1 witness: concrete instantiation of the amended statement. -/
theorem C1_witness :
    extractInstruction "@CLAUDE  Fix The Bug" = "fix the bug" := by
  have h := (C1_instruction_extraction "@CLAUDE  Fix The Bug").1
    [] ("  fix the bug".data) (by decide) (fun pre2 post2 hocc => Nat.zero_le pre2.length)
  rw [h]
  decide

/-- C2 counterexample: an existing but unreadable diff file makes
`load_pr_diff` raise, and the exception escapes `run_claude_review`
uncaught (no document is written), contradicting both halves of the
claim. -/
theorem C2_counterexample :
    load_pr_diff fsUnreadableDiff = .error "OSError: /tmp/pr_diff.patch" ∧
    run_claude_review ⟨some "key", some "7", some "@claude review"⟩ fsUnreadableDiff false []
        (.ok "fine")
      = .error "OSError: /tmp/pr_diff.patch" :=
  ⟨rfl, rfl⟩

/-- C2 (amended): every loader tolerates a MISSING source file, yielding an
empty result; the knowledge loader and the per-file reads of the
changed-file loader also tolerate unreadable files; and provided the diff
file and the changed-file list are not existing-but-unreadable (their
reads are the only uncaught ones), the pipeline never propagates an
uncaught fault — for every model response it terminates normally with a
written document. -/
theorem C2_loader_tolerance (env : Env) (fs : FS) (patternsDirExists : Bool)
    (patternFiles : List String) (modelResponse : Except String String)
    (hdiff : fs "/tmp/pr_diff.patch" ≠ FileData.unreadable)
    (hlist : fs "/tmp/changed_files.txt" ≠ FileData.unreadable) :
    (fs "/tmp/pr_diff.patch" = FileData.absent → load_pr_diff fs = .ok "") ∧
    (fs "/tmp/changed_files.txt" = FileData.absent → load_changed_files_content fs = .ok "") ∧
    (∃ d, load_pr_diff fs = .ok d) ∧
    (∃ c, load_changed_files_content fs = .ok c) ∧
    (∃ r : RunResult,
      run_claude_review env fs patternsDirExists patternFiles modelResponse = .ok r) := by
  obtain ⟨d, hd⟩ := load_pr_diff_ok fs hdiff
  obtain ⟨c, hc⟩ := load_changed_ok fs hlist
  refine ⟨?_, ?_, ⟨d, hd⟩, ⟨c, hc⟩, ?_⟩
  · intro h; unfold load_pr_diff; rw [h]
  · intro h; unfold load_changed_files_content; rw [h]
  · by_cases hk : env.apiKey.getD "" = ""
    · exact ⟨_, run_of_no_key env fs patternsDirExists patternFiles modelResponse hk⟩
    · cases modelResponse with
      | ok rc =>
        exact ⟨_, run_of_key env fs patternsDirExists patternFiles (.ok rc) d c hk hd hc⟩
      | error e =>
        exact ⟨_, run_of_key env fs patternsDirExists patternFiles (.error e) d c hk hd hc⟩

/-- C2 witness: concrete instantiation (all input files absent, failing
model call) of the final conjunct of the amended statement. -/
theorem C2_witness :
    ∃ r : RunResult,
      run_claude_review ⟨some "key", some "3", some "@claude hi"⟩ (fun _ => FileData.absent)
        false [] (.error "boom") = .ok r :=
  (C2_loader_tolerance ⟨some "key", some "3", some "@claude hi"⟩ (fun _ => FileData.absent)
    false [] (.error "boom") (by decide) (by decide)).2.2.2.2

/-- C3: a knowledge blob longer than 50000 characters is embedded in the
system prompt as exactly its first 50000 characters; a diff longer than
30000 and changed-file content longer than 20000 are embedded in the user
message as exactly their first 30000 / 20000 characters; the three limits
are applied independently, by character count, with no truncation marker
(the prompt is exactly template text around the truncated block). -/
theorem C3_truncation (knowledge pr_diff changed_files pr_number user_instruction : String)
    (hk : 50000 < knowledge.data.length)
    (hd : 30000 < pr_diff.data.length)
    (hc : 20000 < changed_files.data.length) :
    buildSystemPrompt knowledge = sysPromptPre ++ takeStr 50000 knowledge ++ sysPromptPost ∧
    buildUserMessage pr_number user_instruction pr_diff changed_files =
      userMsgPart1 ++ pr_number ++ userMsgPart2 ++
        (if user_instruction = "" then instructionFallback else user_instruction) ++
        userMsgPart3 ++ takeStr 30000 pr_diff ++ userMsgPart4 ++
        takeStr 20000 changed_files ++ userMsgPart5 ∧
    (takeStr 50000 knowledge).data = knowledge.data.take 50000 ∧
    (takeStr 30000 pr_diff).data = pr_diff.data.take 30000 ∧
    (takeStr 20000 changed_files).data = changed_files.data.take 20000 := by
  have hkne : knowledge ≠ "" := by
    intro h; subst h; exact absurd hk (by decide)
  have hdne : pr_diff ≠ "" := by
    intro h; subst h; exact absurd hd (by decide)
  have hcne : changed_files ≠ "" := by
    intro h; subst h; exact absurd hc (by decide)
  refine ⟨?_, ?_, rfl, rfl, rfl⟩
  · unfold buildSystemPrompt; rw [if_neg hkne]
  · unfold buildUserMessage; rw [if_neg hdne, if_neg hcne]

/-- C3 witness: concrete over-limit blobs (lengths 50001, 30001, 20001). -/
theorem C3_witness :
    buildSystemPrompt bigKnowledge =
      sysPromptPre ++ takeStr 50000 bigKnowledge ++ sysPromptPost ∧
    buildUserMessage "9" "Focus" bigDiff bigChanged =
      userMsgPart1 ++ "9" ++ userMsgPart2 ++
        (if ("Focus" : String) = "" then instructionFallback else "Focus") ++
        userMsgPart3 ++ takeStr 30000 bigDiff ++ userMsgPart4 ++
        takeStr 20000 bigChanged ++ userMsgPart5 := by
  have h := C3_truncation bigKnowledge bigDiff bigChanged "9" "Focus"
    (by show 50000 < (List.replicate 50001 'k').length; rw [List.length_replicate]; omega)
    (by show 30000 < (List.replicate 30001 'd').length; rw [List.length_replicate]; omega)
    (by show 20000 < (List.replicate 20001 'c').length; rw [List.length_replicate]; omega)
  exact ⟨h.1, h.2.1⟩

/-- C4: with the credential variable absent, the script writes the fixed
configuration-error document, attempts no network call (`sent = none`) and
exits with status 0. -/
theorem C4_missing_credential (env : Env) (fs : FS) (patternsDirExists : Bool)
    (patternFiles : List String) (modelResponse : Except String String)
    (h : env.apiKey = none) :
    run_claude_review env fs patternsDirExists patternFiles modelResponse =
      .ok ⟨configErrorDoc, 0, none⟩ :=
  run_of_no_key env fs patternsDirExists patternFiles modelResponse (by rw [h]; rfl)

/-- C4 witness: concrete run with the credential absent. -/
theorem C4_witness :
    run_claude_review ⟨none, some "42", some "@claude do it"⟩ sampleFS true
      ["/tmp/ai-dev-kit/docs/patterns/a.md"] (.ok "LGTM")
      = .ok ⟨configErrorDoc, 0, none⟩ :=
  C4_missing_credential ⟨none, some "42", some "@claude do it"⟩ sampleFS true
    ["/tmp/ai-dev-kit/docs/patterns/a.md"] (.ok "LGTM") rfl

/-- C5: when the model invocation raises with text `e` (credential present,
both uncaught file reads succeeding), the script writes the error document
embedding `e` verbatim between the fixed error-template pieces and exits
with status 1. -/
theorem C5_invocation_error (env : Env) (fs : FS) (patternsDirExists : Bool)
    (patternFiles : List String) (e : String)
    (hk : ¬ env.apiKey.getD "" = "")
    (hdiff : fs "/tmp/pr_diff.patch" ≠ FileData.unreadable)
    (hlist : fs "/tmp/changed_files.txt" ≠ FileData.unreadable) :
    ∃ prompts : String × String,
      run_claude_review env fs patternsDirExists patternFiles (.error e) =
        .ok ⟨invocationErrorPre ++ e ++ invocationErrorPost, 1, some prompts⟩ := by
  obtain ⟨d, hd⟩ := load_pr_diff_ok fs hdiff
  obtain ⟨c, hc⟩ := load_changed_ok fs hlist
  exact ⟨_, run_of_key env fs patternsDirExists patternFiles (.error e) d c hk hd hc⟩

/-- C5 witness: concrete failing invocation. -/
theorem C5_witness :
    ∃ prompts : String × String,
      run_claude_review ⟨some "k", some "3", some "@claude hi"⟩ (fun _ => FileData.absent)
        false [] (.error "Connection error") =
        .ok ⟨invocationErrorPre ++ "Connection error" ++ invocationErrorPost, 1,
          some prompts⟩ :=
  C5_invocation_error ⟨some "k", some "3", some "@claude hi"⟩ (fun _ => FileData.absent)
    false [] "Connection error" (by decide) (by decide) (by decide)

/-- C6: a listed path contributes a content block iff it passes the
`games/` + {.lua,.json,.md} filter AND exists with readable content; the
list is parsed into whitespace-trimmed non-blank lines; qualifying blocks
appear in list order (`filterMap` over the parsed list); the result is
empty when the list file is absent or no listed path qualifies. -/
theorem C6_changed_file_filter (fs : FS) :
    (fs "/tmp/changed_files.txt" = FileData.absent → load_changed_files_content fs = .ok "") ∧
    (∀ p, (changedBlock fs p).isSome ↔
      (gameFileFilter p = true ∧ ∃ c, fs p = FileData.content c)) ∧
    (∀ s, fs "/tmp/changed_files.txt" = FileData.content s →
      load_changed_files_content fs =
        .ok (joinParts "\n"
          ((((splitLines s).map trimStr).filter (fun l => l ≠ "")).filterMap
            (changedBlock fs)))) ∧
    (∀ s, fs "/tmp/changed_files.txt" = FileData.content s →
      (∀ p ∈ ((splitLines s).map trimStr).filter (fun l => l ≠ ""),
        gameFileFilter p = false) →
      load_changed_files_content fs = .ok "") := by
  refine ⟨?_, ?_, ?_, ?_⟩
  · intro h; unfold load_changed_files_content; rw [h]
  · intro p
    unfold changedBlock
    by_cases hq : gameFileFilter p
    · cases hfp : fs p <;> simp [hq, hfp]
    · simp [hq]
  · exact fun s h => load_changed_eq fs s h
  · intro s h hnone
    rw [load_changed_eq fs s h]
    have hnil :
        (((splitLines s).map trimStr).filter (fun l => l ≠ "")).filterMap (changedBlock fs)
          = [] := by
      rw [List.filterMap_eq_nil_iff]
      intro p hp
      unfold changedBlock
      rw [hnone p hp]
      simp
    rw [hnil]
    rfl

/-- C6 witness: a list with qualifying, non-qualifying, blank, padded and
absent entries yields exactly the blocks of the readable qualifying paths,
in list order. -/
theorem C6_witness :
    load_changed_files_content sampleFS =
      .ok "### games/foo/main.lua\n```\nprint(1)\n```\n\n### games/a.json\n```\nx\n```\n" := by
  have h := (C6_changed_file_filter sampleFS).2.2.1 sampleListText rfl
  rw [h]
  rfl

/-- C7: the knowledge blob is the priority-file blocks in the fixed
priority-list order, followed (when the patterns directory exists) by the
pattern-file blocks in glob-match order, all joined with the fixed
separator `"\n---\n"`. -/
theorem C7_knowledge_order (fs : FS) (patternsDirExists : Bool) (patternFiles : List String) :
    load_ai_dev_kit_knowledge fs patternsDirExists patternFiles =
      (if (priority_files.filterMap (priorityPart fs) ++
            (if patternsDirExists then patternFiles.filterMap (patternPart fs) else [])).isEmpty
       then ""
       else joinParts "\n---\n"
         (priority_files.filterMap (priorityPart fs) ++
           (if patternsDirExists then patternFiles.filterMap (patternPart fs) else []))) :=
  load_knowledge_eq fs patternsDirExists patternFiles

/-- C8: when no knowledge source exists (all priority files absent and no
pattern file), the knowledge blob is the empty string and the system
prompt substitutes the literal fallback sentence. -/
theorem C8_zero_sources (fs : FS) (patternsDirExists : Bool) (patternFiles : List String)
    (hpri : ∀ rel ∈ priority_files, fs (ai_dev_kit_path ++ "/" ++ rel) = FileData.absent)
    (hpat : patternsDirExists = false ∨ patternFiles = []) :
    load_ai_dev_kit_knowledge fs patternsDirExists patternFiles = "" ∧
    buildSystemPrompt (load_ai_dev_kit_knowledge fs patternsDirExists patternFiles) =
      sysPromptPre ++ knowledgeFallback ++ sysPromptPost := by
  have hblob : load_ai_dev_kit_knowledge fs patternsDirExists patternFiles = "" := by
    rw [load_knowledge_eq]
    have hp : priority_files.filterMap (priorityPart fs) = [] := by
      rw [List.filterMap_eq_nil_iff]
      intro rel hrel
      unfold priorityPart
      rw [hpri rel hrel]
    have hq : (if patternsDirExists then patternFiles.filterMap (patternPart fs) else [])
        = [] := by
      rcases hpat with h | h
      · rw [h]; rfl
      · rw [h]; cases patternsDirExists <;> rfl
    rw [hp, hq]
    rfl
  exact ⟨hblob, by rw [hblob]; unfold buildSystemPrompt; rw [if_pos rfl]⟩

/-- C8 witness: fully empty filesystem. -/
theorem C8_witness :
    load_ai_dev_kit_knowledge (fun _ => FileData.absent) false [] = "" ∧
    buildSystemPrompt (load_ai_dev_kit_knowledge (fun _ => FileData.absent) false []) =
      sysPromptPre ++ knowledgeFallback ++ sysPromptPost :=
  C8_zero_sources (fun _ => FileData.absent) false [] (fun _ _ => rfl) (Or.inl rfl)

/-- C9: a comment body with no case-insensitive occurrence of the keyword
does not stop the pipeline: the prompts are still built and the model is
still invoked (`sent = some _`), with the fallback instruction sentence
substituted for the empty instruction in the user message. -/
theorem C9_invoked_without_trigger (env : Env) (fs : FS) (patternsDirExists : Bool)
    (patternFiles : List String) (modelResponse : Except String String)
    (hk : ¬ env.apiKey.getD "" = "")
    (hdiff : fs "/tmp/pr_diff.patch" ≠ FileData.unreadable)
    (hlist : fs "/tmp/changed_files.txt" ≠ FileData.unreadable)
    (hbody : ¬ OccursIn trigger.data (lowerStr (env.commentBody.getD "")).data) :
    ∃ (r : RunResult) (d c : String),
      run_claude_review env fs patternsDirExists patternFiles modelResponse = .ok r ∧
      r.sent = some
        (buildSystemPrompt (load_ai_dev_kit_knowledge fs patternsDirExists patternFiles),
         userMsgPart1 ++ env.prNumber.getD "unknown" ++ userMsgPart2 ++ instructionFallback ++
           userMsgPart3 ++ (if d = "" then diffFallback else takeStr 30000 d) ++
           userMsgPart4 ++ (if c = "" then changedFallback else takeStr 20000 c) ++
           userMsgPart5) := by
  have hinstr : extractInstruction (env.commentBody.getD "") = "" := by
    unfold extractInstruction
    rw [dropAfterFirst_eq_none_of_not_occurs (by decide) hbody]
  obtain ⟨d, hd⟩ := load_pr_diff_ok fs hdiff
  obtain ⟨c, hc⟩ := load_changed_ok fs hlist
  cases modelResponse with
  | ok rc =>
    refine ⟨_, d, c,
      run_of_key env fs patternsDirExists patternFiles (.ok rc) d c hk hd hc, ?_⟩
    rw [hinstr]
    unfold buildUserMessage
    rw [if_pos rfl]
  | error e =>
    refine ⟨_, d, c,
      run_of_key env fs patternsDirExists patternFiles (.error e) d c hk hd hc, ?_⟩
    rw [hinstr]
    unfold buildUserMessage
    rw [if_pos rfl]

/-- C9 witness: concrete run whose comment body never mentions the
keyword; the model is still called with the fallback instruction. -/
theorem C9_witness :
    ∃ (r : RunResult) (d c : String),
      run_claude_review ⟨some "k", some "5", some "no mention here"⟩ (fun _ => FileData.absent)
        false [] (.ok "review text") = .ok r ∧
      r.sent = some
        (buildSystemPrompt (load_ai_dev_kit_knowledge (fun _ => FileData.absent) false []),
         userMsgPart1 ++ "5" ++ userMsgPart2 ++ instructionFallback ++
           userMsgPart3 ++ (if d = "" then diffFallback else takeStr 30000 d) ++
           userMsgPart4 ++ (if c = "" then changedFallback else takeStr 20000 c) ++
           userMsgPart5) :=
  C9_invoked_without_trigger ⟨some "k", some "5", some "no mention here"⟩
    (fun _ => FileData.absent) false [] (.ok "review text")
    (by decide) (by decide) (by decide)
    (fun hocc => absurd (dropAfterFirst_isSome_of_occurs hocc) (by decide))

/-- C10: with the credential absent, the written document is a fixed
constant — two runs with arbitrary, unrelated filesystems, pattern lists,
environments and model responses produce identical results, none of those
inputs being read on this path. -/
theorem C10_config_error_constant (envA envB : Env) (fsA fsB : FS)
    (pdxA pdxB : Bool) (pfsA pfsB : List String) (mrA mrB : Except String String)
    (hA : envA.apiKey = none) (hB : envB.apiKey = none) :
    run_claude_review envA fsA pdxA pfsA mrA = run_claude_review envB fsB pdxB pfsB mrB ∧
    run_claude_review envA fsA pdxA pfsA mrA = .ok ⟨configErrorDoc, 0, none⟩ := by
  have h1 := run_of_no_key envA fsA pdxA pfsA mrA (by rw [hA]; rfl)
  have h2 := run_of_no_key envB fsB pdxB pfsB mrB (by rw [hB]; rfl)
  exact ⟨h1.trans h2.symm, h1⟩

/-- C10 witness: two concrete credential-less runs with different
filesystems, comment bodies, PR numbers and model responses coincide. -/
theorem C10_witness :
    run_claude_review ⟨none, some "1", some "@claude x"⟩ (fun _ => FileData.content "K")
        false [] (.ok "a")
      = run_claude_review ⟨none, none, none⟩ sampleFS true ["p.md"] (.error "boom") ∧
    run_claude_review ⟨none, some "1", some "@claude x"⟩ (fun _ => FileData.content "K")
        false [] (.ok "a")
      = .ok ⟨configErrorDoc, 0, none⟩ :=
  C10_config_error_constant ⟨none, some "1", some "@claude x"⟩ ⟨none, none, none⟩
    (fun _ => FileData.content "K") sampleFS false true [] ["p.md"] (.ok "a") (.error "boom")
    rfl rfl
